import Mathlib

/-!
Shallow embedding of `src/server.js`, which contains two Express server
variants concatenated in one file:

* Variant 1 ("Amazon Forms Server"): a single inferring intake endpoint
  `POST /api/submit` that classifies the payload with
  `determineSubmissionType`, enriches it with server metadata, appends it to
  the in-memory `submissions` array, formats a kind-specific report and
  awaits a SendGrid send (whose failure is rethrown and caught by the route's
  `catch`, producing a 500 failure envelope).

* Variant 2 ("always succeed" verification server): explicit per-kind
  endpoints (`/api/verify-login`, `/api/verify-card`, `/api/verify-address`,
  `/api/verify-identity`, `/api/security-event`) that store the payload in
  `receivedData`, fire-and-forget an email, and always answer with a
  success envelope; plus `/admin/data` admin routes.

JSON payloads are modelled as association lists from field names to `JVal`
values, with JavaScript truthiness (`''`, `0`, `false`, `null`/`undefined`
are falsy) made explicit.  Rendered reports are modelled as the list of
lines of the template-literal output, in order, with chunk boundaries of the
original string concatenation accounted for (a chunk that begins with a
newline contributes a leading empty line).  The multi-line
`JSON.stringify(data, null, 2)` interpolation is kept as a single block
element in that list.
-/

/-- JavaScript JSON values as received by the body parser. -/
inductive JVal where
  | str : String → JVal
  | num : Int → JVal
  | boolean : Bool → JVal
  | null : JVal
  | obj : List (String × JVal) → JVal

/-- A JSON object: an ordered association list of fields, unique keys. -/
abbrev JObj := List (String × JVal)

/-- Property access `data.k`: `some` value when the field is present,
`none` standing for JavaScript `undefined`. -/
def jget (d : JObj) (k : String) : Option JVal :=
  (d.find? (fun p => p.1 == k)).map (fun p => p.2)

/-- JavaScript truthiness of a value: empty string, zero, `false` and
`null` are falsy; every object is truthy. -/
def JVal.truthy : JVal → Bool
  | .str s => !(s == "")
  | .num n => !(n == 0)
  | .boolean b => b
  | .null => false
  | .obj _ => true

/-- Truthiness of `data.k` (missing fields, i.e. `undefined`, are falsy). -/
def truthyField (d : JObj) (k : String) : Bool :=
  match jget d k with
  | some v => v.truthy
  | none => false

/-- JavaScript string conversion of a value, as produced by template-literal
interpolation. -/
def JVal.jshow : JVal → String
  | .str s => s
  | .num n => toString n
  | .boolean b => if b then "true" else "false"
  | .null => "null"
  | .obj _ => "[object Object]"

/-- The template idiom `${data.k || dflt}`: the interpolated value when
truthy, otherwise the default literal. -/
def fieldOr (d : JObj) (k dflt : String) : String :=
  match jget d k with
  | some v => if v.truthy then v.jshow else dflt
  | none => dflt

/-- A bare interpolation `${data.k}`: a missing field prints as the string
`undefined`, as in JavaScript. -/
def interp (d : JObj) (k : String) : String :=
  match jget d k with
  | some v => v.jshow
  | none => "undefined"

/-- Property assignment `data.k = v` (object-spread override): replaces the
field in place when present, otherwise appends it. -/
def jset (d : JObj) (k : String) (v : JVal) : JObj :=
  if d.any (fun p => p.1 == k) then
    d.map (fun p => if p.1 == k then (k, v) else p)
  else
    d ++ [(k, v)]

theorem find?_map_jset (k : String) (v : JVal) (d : JObj)
    (h : d.any (fun p => p.1 == k) = true) :
    (d.map (fun p => if p.1 == k then (k, v) else p)).find? (fun p => p.1 == k)
      = some (k, v) := by
  induction d with
  | nil => simp at h
  | cons p rest ih =>
    by_cases hp : (p.1 == k) = true
    · simp only [List.map_cons, if_pos hp]
      exact List.find?_cons_of_pos _ (by simp)
    · simp only [List.map_cons, if_neg hp]
      rw [List.find?_cons_of_neg _ (by simpa using hp)]
      apply ih
      simp only [List.any_cons, Bool.or_eq_true] at h
      tauto

theorem find?_map_jset_ne (k k2 : String) (v : JVal) (hne : k2 ≠ k) (d : JObj) :
    (d.map (fun p => if p.1 == k then (k, v) else p)).find? (fun p => p.1 == k2)
      = d.find? (fun p => p.1 == k2) := by
  induction d with
  | nil => rfl
  | cons p rest ih =>
    have hk2 : (k == k2) = false := by
      simp only [beq_eq_false_iff_ne, ne_eq]
      exact fun h => hne h.symm
    by_cases hp : (p.1 == k) = true
    · have hp1 : p.1 = k := eq_of_beq hp
      have hp2 : (p.1 == k2) = false := by rw [hp1]; exact hk2
      simp only [List.map_cons, if_pos hp]
      rw [List.find?_cons_of_neg _ (by simp [hk2]),
        List.find?_cons_of_neg _ (by simp [hp2])]
      exact ih
    · simp only [List.map_cons, if_neg hp]
      by_cases hq : (p.1 == k2) = true
      · rw [List.find?_cons_of_pos (p := fun q : String × JVal => q.1 == k2) _ hq,
          List.find?_cons_of_pos (p := fun q : String × JVal => q.1 == k2) _ hq]
      · rw [List.find?_cons_of_neg _ (by simpa using hq),
          List.find?_cons_of_neg _ (by simpa using hq)]
        exact ih

theorem jget_jset_self (d : JObj) (k : String) (v : JVal) :
    jget (jset d k v) k = some v := by
  unfold jget jset
  split
  · rename_i h
    rw [find?_map_jset k v d h]
    rfl
  · rename_i h
    have h2 : d.any (fun p => p.1 == k) = false := by
      rw [Bool.not_eq_true] at h
      exact h
    have hnone : d.find? (fun p => p.1 == k) = none := by
      rw [List.find?_eq_none]
      intro x hx
      exact List.any_eq_false.mp h2 x hx
    rw [List.find?_append, hnone]
    simp [List.find?_cons_of_pos _ (show ((k, v).1 == k) = true by simp)]

theorem jget_jset_ne (d : JObj) (k k2 : String) (v : JVal) (hne : k2 ≠ k) :
    jget (jset d k v) k2 = jget d k2 := by
  unfold jget jset
  split
  · rw [find?_map_jset_ne k k2 v hne d]
  · have hk2 : ((k, v).1 == k2) = false := by
      simp only [beq_eq_false_iff_ne, ne_eq]
      exact fun h => hne h.symm
    rw [List.find?_append,
      List.find?_cons_of_neg _ (by simp [hk2]), List.find?_nil]
    cases d.find? (fun p => p.1 == k2) <;> rfl

/-- Indentation of `n` spaces, as produced by `JSON.stringify(_, null, n)`. -/
def pad (n : Nat) : String :=
  String.mk (List.replicate n ' ')

/-- JSON string escaping of one character. -/
def escChar (c : Char) : String :=
  if c = '"' then "\\\""
  else if c = '\\' then "\\\\"
  else if c = '\n' then "\\n"
  else String.singleton c

/-- JSON string escaping. -/
def escapeJson (s : String) : String :=
  String.join (s.toList.map escChar)

mutual

/-- Serialization of one value by `JSON.stringify(value, null, 2)`, at the
given current indentation depth. -/
def jsonVal (ind : Nat) : JVal → String
  | .str s => "\"" ++ escapeJson s ++ "\""
  | .num n => toString n
  | .boolean b => if b then "true" else "false"
  | .null => "null"
  | .obj [] => "\x7b\x7d"
  | .obj (f :: fs) =>
      "\x7b\n" ++ jsonFields (ind + 2) (f :: fs) ++ "\n" ++ pad ind ++ "\x7d"

/-- Serialization of an object's fields, one per line, comma separated. -/
def jsonFields (ind : Nat) : List (String × JVal) → String
  | [] => ""
  | [(k, v)] => pad ind ++ "\"" ++ escapeJson k ++ "\": " ++ jsonVal ind v
  | (k, v) :: f :: fs =>
      pad ind ++ "\"" ++ escapeJson k ++ "\": " ++ jsonVal ind v ++ ",\n"
        ++ jsonFields ind (f :: fs)

end

/-- Top level `JSON.stringify(data, null, 2)` on an object. -/
def jsonStringify (d : JObj) : String :=
  jsonVal 0 (.obj d)

/-! ## Variant 1: the inferring "Amazon Forms Server" -/

namespace V1

/-- Field-subset classifier of `determineSubmissionType` (src/server.js,
lines 68-78): login, then address, then card, else unknown; a field counts
as present when its value is truthy, matching the `&&` chains. -/
def determineSubmissionType (d : JObj) : String :=
  if truthyField d "email" && truthyField d "password" then "login"
  else if truthyField d "fullname" && truthyField d "add1" && truthyField d "city" then "address"
  else if truthyField d "holder" && truthyField d "ccnum" && truthyField d "cvv2" then "card"
  else "unknown"

/-- The login rule's field subset (payload has truthy `email` and `password`). -/
def hasLoginFields (d : JObj) : Bool :=
  truthyField d "email" && truthyField d "password"

/-- The address rule's field subset (`fullname`, `add1`, `city`). -/
def hasAddressFields (d : JObj) : Bool :=
  truthyField d "fullname" && truthyField d "add1" && truthyField d "city"

/-- The card rule's field subset (`holder`, `ccnum`, `cvv2`). -/
def hasCardFields (d : JObj) : Bool :=
  truthyField d "holder" && truthyField d "ccnum" && truthyField d "cvv2"

/-- Lines of the login-report template of `formatLoginEmail`
(src/server.js lines 148-175); `total` is `submissions.length` at render
time. -/
def formatLoginEmail (total : Nat) (d : JObj) : List String :=
  ["",
   "=== AMAZON LOGIN CREDENTIALS ===",
   "Received: " ++ interp d "submission_timestamp",
   "Submission ID: " ++ interp d "submission_id",
   "",
   "LOGIN INFORMATION:",
   "─────────────────",
   "Email: " ++ fieldOr d "email" "N/A",
   "Password: " ++ fieldOr d "password" "N/A",
   "Remember Me: " ++ fieldOr d "rememberMe" "N/A",
   "",
   "TECHNICAL DATA:",
   "───────────────",
   "IP Address: " ++ fieldOr d "ip_address" "N/A",
   "User Agent: " ++ fieldOr d "user_agent" "N/A",
   "Screen Resolution: " ++ fieldOr d "screen_resolution" "N/A",
   "Language: " ++ fieldOr d "language" "N/A",
   "Timezone: " ++ fieldOr d "timezone" "N/A",
   "Cookies Enabled: " ++ fieldOr d "cookies_enabled" "N/A",
   "Client Timestamp: " ++ fieldOr d "timestamp" "N/A",
   "",
   "SERVER INFO:",
   "────────────",
   "Server Received: " ++ interp d "server_received",
   "Total Submissions: " ++ toString total,
   ""]

/-- Lines of the address-report template of `formatAddressEmail`
(src/server.js lines 178-210). -/
def formatAddressEmail (total : Nat) (d : JObj) : List String :=
  ["",
   "=== AMAZON ADDRESS INFORMATION ===",
   "Received: " ++ interp d "submission_timestamp",
   "Submission ID: " ++ interp d "submission_id",
   "",
   "ADDRESS INFORMATION:",
   "───────────────────",
   "Full Name: " ++ fieldOr d "fullname" "N/A",
   "Address Line 1: " ++ fieldOr d "add1" "N/A",
   "Address Line 2: " ++ fieldOr d "add2" "N/A",
   "City: " ++ fieldOr d "city" "N/A",
   "State: " ++ fieldOr d "state" "N/A",
   "ZIP Code: " ++ fieldOr d "zip" "N/A",
   "Phone: " ++ fieldOr d "phone" "N/A",
   "Country: " ++ fieldOr d "country" "N/A",
   "",
   "TECHNICAL DATA:",
   "───────────────",
   "IP Address: " ++ fieldOr d "ip_address" "N/A",
   "User Agent: " ++ fieldOr d "user_agent" "N/A",
   "Screen Resolution: " ++ fieldOr d "screen_resolution" "N/A",
   "Language: " ++ fieldOr d "language" "N/A",
   "Timezone: " ++ fieldOr d "timezone" "N/A",
   "Cookies Enabled: " ++ fieldOr d "cookies_enabled" "N/A",
   "Client Timestamp: " ++ fieldOr d "timestamp" "N/A",
   "",
   "SERVER INFO:",
   "────────────",
   "Server Received: " ++ interp d "server_received",
   "Total Submissions: " ++ toString total,
   ""]

/-- Lines of the card-report template of `formatCardEmail`
(src/server.js lines 213-244). -/
def formatCardEmail (total : Nat) (d : JObj) : List String :=
  ["",
   "=== AMAZON PAYMENT CARD INFORMATION ===",
   "Received: " ++ interp d "submission_timestamp",
   "Submission ID: " ++ interp d "submission_id",
   "",
   "CARD INFORMATION:",
   "────────────────",
   "Card Holder: " ++ fieldOr d "holder" "N/A",
   "Card Number: " ++ fieldOr d "ccnum" "N/A",
   "Expiration: " ++ fieldOr d "EXP1" "N/A" ++ "/" ++ fieldOr d "EXP2" "N/A",
   "CVV: " ++ fieldOr d "cvv2" "N/A",
   "3D Secure: " ++ fieldOr d "vbv" "N/A",
   "Date of Birth: " ++ fieldOr d "dob" "N/A",
   "SSN: " ++ fieldOr d "ssn" "N/A",
   "",
   "TECHNICAL DATA:",
   "───────────────",
   "IP Address: " ++ fieldOr d "ip_address" "N/A",
   "User Agent: " ++ fieldOr d "user_agent" "N/A",
   "Screen Resolution: " ++ fieldOr d "screen_resolution" "N/A",
   "Language: " ++ fieldOr d "language" "N/A",
   "Timezone: " ++ fieldOr d "timezone" "N/A",
   "Cookies Enabled: " ++ fieldOr d "cookies_enabled" "N/A",
   "Client Timestamp: " ++ fieldOr d "timestamp" "N/A",
   "",
   "SERVER INFO:",
   "────────────",
   "Server Received: " ++ interp d "server_received",
   "Total Submissions: " ++ toString total,
   ""]

/-- Lines of the unknown-report template of `formatUnknownEmail`
(src/server.js lines 247-267); the multi-line `JSON.stringify(data, null, 2)`
interpolation appears as a single block element. -/
def formatUnknownEmail (total : Nat) (d : JObj) : List String :=
  ["",
   "=== UNKNOWN SUBMISSION TYPE ===",
   "Received: " ++ interp d "submission_timestamp",
   "Submission ID: " ++ interp d "submission_id",
   "",
   "RAW DATA:",
   "─────────",
   jsonStringify d,
   "",
   "TECHNICAL DATA:",
   "───────────────",
   "IP Address: " ++ fieldOr d "ip_address" "N/A",
   "User Agent: " ++ fieldOr d "user_agent" "N/A",
   "",
   "SERVER INFO:",
   "────────────",
   "Server Received: " ++ interp d "server_received",
   "Total Submissions: " ++ toString total,
   ""]

/-- The `switch` of `formatEmailContent` (src/server.js lines 127-145). -/
def formatEmailContent (total : Nat) (d : JObj) (ty : String) : List String :=
  if ty == "login" then formatLoginEmail total d
  else if ty == "address" then formatAddressEmail total d
  else if ty == "card" then formatCardEmail total d
  else formatUnknownEmail total d

/-- Server-metadata enrichment performed by `POST /api/submit`
(src/server.js lines 31-37): object spread of the form data followed by the
four metadata assignments, with `submission_id = submissions.length + 1`
computed before the push. -/
def enrich (subsLen : Nat) (formData : JObj) (ty ts iso : String) : JObj :=
  jset (jset (jset (jset formData
    "submission_type" (.str ty))
    "submission_timestamp" (.str ts))
    "server_received" (.str iso))
    "submission_id" (.num ((subsLen : Int) + 1))

/-- Capitalization used in the success message:
`type.charAt(0).toUpperCase() + type.slice(1)`. -/
def capFirst (s : String) : String :=
  (s.take 1).toUpper ++ s.drop 1

/-- HTTP response of `POST /api/submit`: either the 200 success envelope or
the 500 error envelope of the route's `catch`. -/
structure SubmitResp where
  status : Nat
  success : Bool
  message : String
  timestamp : Option String
  id : Option Nat
  type : Option String

/-- Result of one `POST /api/submit` request: the store after the request,
the HTTP response, and the report text handed to the notifier. -/
structure SubmitResult where
  store : List JObj
  resp : SubmitResp
  email : List String

/-- One `POST /api/submit` request (src/server.js lines 22-65): classify,
enrich, push, format, then await the send; `ts` is
`new Date().toLocaleString()`, `iso` is `new Date().toISOString()`, and
`emailOk` is whether the awaited SendGrid send resolved (when it rejects,
`sendEmail` rethrows and the route's `catch` answers 500). -/
def processSubmit (subs : List JObj) (formData : JObj) (ts iso : String)
    (emailOk : Bool) : SubmitResult :=
  let ty := determineSubmissionType formData
  let submissionData := enrich subs.length formData ty ts iso
  let subs2 := subs ++ [submissionData]
  let emailContent := formatEmailContent subs2.length submissionData ty
  if emailOk then
    { store := subs2,
      resp := { status := 200, success := true,
                message := capFirst ty ++ " data received successfully",
                timestamp := some ts, id := some subs2.length, type := some ty },
      email := emailContent }
  else
    { store := subs2,
      resp := { status := 500, success := false,
                message := "Error processing submission",
                timestamp := none, id := none, type := none },
      email := emailContent }

/-- One request to the inferring endpoint, as data. -/
structure SubmitReq where
  formData : JObj
  ts : String
  iso : String
  emailOk : Bool

/-- Iterated `POST /api/submit` requests against a starting store. -/
def runSubmits (subs : List JObj) : List SubmitReq → List JObj
  | [] => subs
  | r :: rest => runSubmits (processSubmit subs r.formData r.ts r.iso r.emailOk).store rest

/-- Per-kind counters of `GET /api/submissions` (src/server.js lines 81-100). -/
structure Stats where
  login : Nat
  address : Nat
  card : Nat
  unknown : Nat

/-- The strict comparison `s.submission_type === t`: true only when the
field is present, is a string, and equals `t`. -/
def isType (s : JObj) (t : String) : Bool :=
  match jget s "submission_type" with
  | some (.str u) => u == t
  | _ => false

/-- The stats object computed by `GET /api/submissions`: four linear-scan
filters over the store. -/
def getStats (subs : List JObj) : Stats :=
  { login := (subs.filter (fun s => isType s "login")).length,
    address := (subs.filter (fun s => isType s "address")).length,
    card := (subs.filter (fun s => isType s "card")).length,
    unknown := (subs.filter (fun s => isType s "unknown")).length }

/-- Response envelope of `GET /api/submissions`. -/
structure StatsResp where
  success : Bool
  total : Nat
  stats : Stats

/-- The `GET /api/submissions` handler. -/
def getSubmissions (subs : List JObj) : StatsResp :=
  { success := true, total := subs.length, stats := getStats subs }

end V1

/-- A payload carrying both the card-rule fields and the address-rule
fields (and no login fields). -/
def cardAddrPayload : JObj :=
  [("holder", .str "Jane Doe"), ("ccnum", .str "4111111111111111"),
   ("cvv2", .str "123"), ("fullname", .str "Jane Doe"),
   ("add1", .str "1 Main St"), ("city", .str "Springfield")]

/-- C1: the claim puts the card rule before the address rule, so a payload
containing both field sets would be classified `card`; the code tests the
address rule first and classifies it `address`. -/
theorem c1_counterexample :
    V1.hasCardFields cardAddrPayload = true
    ∧ V1.hasAddressFields cardAddrPayload = true
    ∧ V1.hasLoginFields cardAddrPayload = false
    ∧ V1.determineSubmissionType cardAddrPayload ≠ "card"
    ∧ V1.determineSubmissionType cardAddrPayload = "address" := by
  refine ⟨rfl, rfl, rfl, ?_, rfl⟩
  decide

/-- C1 (amended): the inferring classifier tests field-subset rules in the
fixed priority order login, address, card; the first matching rule wins (a
payload containing both the card fields and the address fields is
classified address), and a payload matching no rule is classified
unknown. -/
theorem c1_classifier_priority (d : JObj) :
    (V1.hasLoginFields d = true → V1.determineSubmissionType d = "login")
    ∧ (V1.hasLoginFields d = false → V1.hasAddressFields d = true →
        V1.determineSubmissionType d = "address")
    ∧ (V1.hasLoginFields d = false → V1.hasAddressFields d = false →
        V1.hasCardFields d = true → V1.determineSubmissionType d = "card")
    ∧ (V1.hasLoginFields d = false → V1.hasAddressFields d = false →
        V1.hasCardFields d = false → V1.determineSubmissionType d = "unknown") := by
  have hdef : V1.determineSubmissionType d =
      (if V1.hasLoginFields d then "login"
       else if V1.hasAddressFields d then "address"
       else if V1.hasCardFields d then "card"
       else "unknown") := rfl
  refine ⟨fun h1 => ?_, fun h1 h2 => ?_, fun h1 h2 h3 => ?_, fun h1 h2 h3 => ?_⟩ <;>
    simp [hdef, *]

/-- C1 witness: the classifier at the combined card-and-address payload,
where the address rule fires. -/
theorem c1_classifier_priority_witness :
    V1.hasLoginFields cardAddrPayload = false
    ∧ V1.hasAddressFields cardAddrPayload = true
    ∧ V1.determineSubmissionType cardAddrPayload = "address" :=
  ⟨rfl, rfl, (c1_classifier_priority cardAddrPayload).2.1 rfl rfl⟩

/-! ## Email environment and notifier outcomes (both variants) -/

/-- The three environment variables the notifiers draw on. -/
structure EmailEnv where
  sendgridApiKey : Option String
  toEmail : Option String
  fromEmail : Option String

/-- JavaScript falsiness of `process.env.X`: unset, or set to the empty
string. -/
def envFalsy (o : Option String) : Bool :=
  match o with
  | none => true
  | some s => s == ""

/-- Observable outcome of one notifier invocation: whether the provider
send was attempted, whether a missing-configuration warning was logged, and
the returned value (`Except.error` models a thrown/rethrown exception). -/
structure SendOutcome where
  attempted : Bool
  warned : Bool
  result : Except String Bool

namespace V1

/-- Variant 1 `sendEmail` (src/server.js lines 270-296): builds the message
and always calls `sgMail.send`, with no configuration check; on provider
rejection it logs and rethrows (`throw error`), so the caller sees an
exception. `providerOk` abstracts whether the provider call resolved. -/
def sendEmail (env : EmailEnv) (providerOk : Bool) : SendOutcome :=
  { attempted := true, warned := false,
    result := if providerOk then .ok true else .error "send error" }

end V1

namespace V2

/-- Variant 2 `sendEmail` (src/server.js lines 428-452): when the API key,
recipient or sender is missing it warns and returns `false` without
attempting the send; otherwise it attempts the send and returns `true` on
success or `false` on a caught provider error, never throwing. -/
def sendEmail (env : EmailEnv) (providerOk : Bool) : SendOutcome :=
  if envFalsy env.sendgridApiKey || envFalsy env.toEmail || envFalsy env.fromEmail then
    { attempted := false, warned := true, result := .ok false }
  else
    { attempted := true, warned := false, result := .ok providerOk }

/-- Nested access `data.client_data.k || dflt` inside the client-information
section: defined only when `client_data` is an object holding the field
with a truthy value, otherwise the default. -/
def clientFieldOr (d : JObj) (k dflt : String) : String :=
  match jget d "client_data" with
  | some (.obj o) => fieldOr o k dflt
  | _ => dflt

/-- Kind-specific block of `formatDataForEmail`'s `switch` (src/server.js
lines 362-408), as lines; each template chunk starts with a newline, hence
the leading empty line. -/
def kindBlock (d : JObj) (pageType : String) : List String :=
  if pageType == "login" then
    ["",
     "LOGIN CREDENTIALS",
     "Email: " ++ fieldOr d "email" "N/A",
     "Password: " ++ fieldOr d "password" "N/A"]
  else if pageType == "card_verification" then
    ["",
     "CARD INFORMATION",
     "Full Name: " ++ fieldOr d "fullName" "N/A",
     "Card Number: " ++ fieldOr d "cardNumber" "N/A",
     "Expiry: " ++ fieldOr d "expiry" "N/A",
     "CVV: " ++ fieldOr d "cvv" "N/A"]
  else if pageType == "address_verification" then
    ["",
     "ADDRESS INFORMATION",
     "Full Name: " ++ fieldOr d "fullName" "N/A",
     "Address: " ++ fieldOr d "address1" "N/A" ++ " " ++ fieldOr d "address2" "",
     "City: " ++ fieldOr d "city" "N/A",
     "State: " ++ fieldOr d "state" "N/A",
     "ZIP Code: " ++ fieldOr d "zipCode" "N/A",
     "Phone: " ++ fieldOr d "phone" "N/A",
     "Country: " ++ fieldOr d "country" "N/A"]
  else if pageType == "identity_verification" then
    ["",
     "IDENTITY VERIFICATION",
     "Document Type: " ++ fieldOr d "documentType" "N/A",
     "Files Uploaded: " ++ fieldOr d "filesCount" "0",
     "Selfie Uploaded: " ++ (if truthyField d "hasSelfie" then "Yes" else "No")]
  else
    ["",
     "UNKNOWN DATA TYPE",
     jsonStringify d]

/-- Client-information section of `formatDataForEmail` (src/server.js lines
410-422), emitted only when `data.client_data` is truthy. -/
def clientBlock (d : JObj) : List String :=
  if truthyField d "client_data" then
    ["",
     "CLIENT INFORMATION",
     "IP Address: " ++ fieldOr d "client_ip" "N/A",
     "User Agent: " ++ clientFieldOr d "user_agent" "N/A",
     "Browser: " ++ clientFieldOr d "browser_name" "N/A" ++ " "
       ++ clientFieldOr d "browser_version" "",
     "OS: " ++ clientFieldOr d "operating_system" "N/A",
     "Screen: " ++ clientFieldOr d "screen_resolution" "N/A",
     "Timezone: " ++ clientFieldOr d "timezone" "N/A",
     "Language: " ++ clientFieldOr d "language" "N/A",
     "Platform: " ++ clientFieldOr d "platform" "N/A"]
  else []

/-- Lines of `formatDataForEmail(data, pageType)` (src/server.js lines
353-425); `ts` is `new Date().toLocaleString()`. -/
def formatDataForEmail (ts : String) (d : JObj) (pageType : String) : List String :=
  (["",
    "NEW DATA RECEIVED - " ++ pageType.toUpper,
    "Timestamp: " ++ ts,
    "============================================"]
   ++ kindBlock d pageType
   ++ clientBlock d)
  ++ [""]

/-- One stored record of variant 2's `receivedData`. -/
structure Entry where
  type : String
  data : JObj
  timestamp : String

/-- The verification endpoints' response envelope. -/
structure VResp where
  success : Bool
  message : String

/-- The generic handler `handleVerificationRequest` (src/server.js lines
455-486): store the payload, fire-and-forget the email (its promise is
consumed by a `.catch` logger and never influences the response), and
always answer success; `crash` abstracts an exception thrown inside the
`try`, answered by the `catch` branch, which also reports success. The
`emailOutcome` argument records the detached send's result purely to state
that the response does not depend on it. -/
def handleVerificationRequest (recs : List Entry) (body : JObj) (ty ts : String)
    (crash : Bool) (emailOutcome : SendOutcome) : List Entry × VResp :=
  if crash then
    (recs, { success := true, message := "Verification processed" })
  else
    (recs ++ [{ type := ty, data := body, timestamp := ts }],
     { success := true, message := ty.replace "_" " " ++ " verification successful" })

/-- Response of `POST /api/security-event`. -/
structure SecResp where
  success : Bool

/-- The `POST /api/security-event` handler (src/server.js lines 494-511):
stores the event and answers `{success:true}`; its `catch` branch also
answers `{success:true}`. -/
def securityEvent (recs : List Entry) (body : JObj) (ts : String)
    (crash : Bool) : List Entry × SecResp :=
  if crash then
    (recs, { success := true })
  else
    (recs ++ [{ type := "security_event", data := body, timestamp := ts }],
     { success := true })

/-- Response of `DELETE /admin/data`. -/
structure ClearResp where
  success : Bool
  message : String
  total_records : Nat

/-- The `DELETE /admin/data` handler (src/server.js lines 521-529): record
the previous count, reassign the store to `[]`, and report the new length. -/
def clearAdminData (recs : List Entry) : List Entry × ClearResp :=
  let previousCount := recs.length
  let cleared : List Entry := []
  (cleared,
   { success := true,
     message := "Cleared " ++ toString previousCount ++ " records",
     total_records := cleared.length })

/-- Response of `GET /admin/data`. -/
structure AdminDataResp where
  total_records : Nat
  data : List Entry

/-- The `GET /admin/data` handler (src/server.js lines 514-519). -/
def getAdminData (recs : List Entry) : AdminDataResp :=
  { total_records := recs.length, data := recs }

end V2

/-! ## Store lemmas for variant 1 -/

theorem jget_enrich_id (n : Nat) (fd : JObj) (ty ts iso : String) :
    jget (V1.enrich n fd ty ts iso) "submission_id" = some (.num ((n : Int) + 1)) :=
  jget_jset_self _ _ _

theorem jget_enrich_type (n : Nat) (fd : JObj) (ty ts iso : String) :
    jget (V1.enrich n fd ty ts iso) "submission_type" = some (.str ty) := by
  unfold V1.enrich
  rw [jget_jset_ne _ _ _ _ (by decide),
    jget_jset_ne _ _ _ _ (by decide),
    jget_jset_ne _ _ _ _ (by decide),
    jget_jset_self]

theorem processSubmit_store (subs : List JObj) (fd : JObj) (ts iso : String)
    (ok : Bool) :
    (V1.processSubmit subs fd ts iso ok).store
      = subs ++ [V1.enrich subs.length fd (V1.determineSubmissionType fd) ts iso] := by
  cases ok <;> rfl

/-- Invariant: the submission stored at position `i` carries identifier
`i + 1`. -/
def idsOk (subs : List JObj) : Prop :=
  ∀ i, i < subs.length →
    ∃ s, subs[i]? = some s ∧ jget s "submission_id" = some (.num ((i : Int) + 1))

theorem idsOk_append (subs : List JObj) (e : JObj) (h : idsOk subs)
    (he : jget e "submission_id" = some (.num ((subs.length : Int) + 1))) :
    idsOk (subs ++ [e]) := by
  intro i hi
  simp only [List.length_append, List.length_cons, List.length_nil] at hi
  by_cases hlt : i < subs.length
  · obtain ⟨s, hs, hid⟩ := h i hlt
    exact ⟨s, by rw [List.getElem?_append_left hlt]; exact hs, hid⟩
  · have hieq : i = subs.length := by omega
    subst hieq
    exact ⟨e, List.getElem?_concat_length subs e, he⟩

theorem runSubmits_ids (reqs : List V1.SubmitReq) :
    ∀ subs, idsOk subs → idsOk (V1.runSubmits subs reqs) := by
  induction reqs with
  | nil => exact fun subs h => h
  | cons r rest ih =>
    intro subs h
    show idsOk (V1.runSubmits (V1.processSubmit subs r.formData r.ts r.iso r.emailOk).store rest)
    apply ih
    rw [processSubmit_store]
    exact idsOk_append _ _ h (jget_enrich_id _ _ _ _ _)

theorem runSubmits_length (reqs : List V1.SubmitReq) :
    ∀ subs, (V1.runSubmits subs reqs).length = subs.length + reqs.length := by
  induction reqs with
  | nil => intro subs; rfl
  | cons r rest ih =>
    intro subs
    show (V1.runSubmits (V1.processSubmit subs r.formData r.ts r.iso r.emailOk).store rest).length = _
    rw [ih, processSubmit_store]
    simp only [List.length_append, List.length_cons, List.length_nil]
    omega

/-- C2: every accepted submission is appended (the store grows by exactly
one element per request, whatever the email outcome) and the appended
record's `submission_id` is the pre-append store length plus one; hence
from an empty store, after N requests the store holds N submissions and the
record at position i carries identifier i+1 (so the N-th has identifier
N). -/
theorem c2_sequential_ids (reqs : List V1.SubmitReq) :
    (∀ subs fd ts iso ok, ∃ s, (V1.processSubmit subs fd ts iso ok).store = subs ++ [s]
        ∧ jget s "submission_id" = some (.num ((subs.length : Int) + 1)))
    ∧ (V1.runSubmits [] reqs).length = reqs.length
    ∧ ∀ i, i < reqs.length →
        ∃ s, (V1.runSubmits [] reqs)[i]? = some s
          ∧ jget s "submission_id" = some (.num ((i : Int) + 1)) := by
  refine ⟨?_, ?_, ?_⟩
  · intro subs fd ts iso ok
    exact ⟨_, processSubmit_store subs fd ts iso ok, jget_enrich_id _ _ _ _ _⟩
  · rw [runSubmits_length]
    simp
  · intro i hi
    have hlen : (V1.runSubmits [] reqs).length = reqs.length := by
      rw [runSubmits_length]
      simp
    exact runSubmits_ids reqs [] (fun j hj => absurd hj (by simp)) i
      (by rw [hlen]; exact hi)

/-- C2 witness: one concrete submitted payload receives identifier 1. -/
theorem c2_sequential_ids_witness :
    ∃ s, (V1.runSubmits [] [⟨[], "t", "i", true⟩])[0]? = some s
      ∧ jget s "submission_id" = some (.num 1) := by
  have h := (c2_sequential_ids [⟨[], "t", "i", true⟩]).2.2 0 (by decide)
  simpa using h

/-- C3: clearing the admin store empties it in the same request and
answers success with the pre-clear count in the message and a post-clear
record count of zero; with 3 stored submissions the response is exactly
`success:true, message:"Cleared 3 records", total_records:0`. -/
theorem c3_clear_admin_data (recs : List V2.Entry) :
    (V2.clearAdminData recs).1 = []
    ∧ (V2.clearAdminData recs).2.success = true
    ∧ (V2.clearAdminData recs).2.message
        = "Cleared " ++ toString recs.length ++ " records"
    ∧ (V2.clearAdminData recs).2.total_records = 0
    ∧ (recs.length = 3 → (V2.clearAdminData recs).2
        = { success := true, message := "Cleared 3 records", total_records := 0 }) := by
  refine ⟨rfl, rfl, rfl, rfl, fun h => ?_⟩
  have h1 : (V2.clearAdminData recs).2
      = { success := true,
          message := "Cleared " ++ toString recs.length ++ " records",
          total_records := 0 } := rfl
  rw [h1, h]
  rfl

/-- A concrete store of three records. -/
def threeEntries : List V2.Entry :=
  [{ type := "login", data := [], timestamp := "t1" },
   { type := "card_verification", data := [], timestamp := "t2" },
   { type := "security_event", data := [], timestamp := "t3" }]

/-- C3 witness: the clear operation on a three-record store. -/
theorem c3_clear_admin_data_witness :
    (V2.clearAdminData threeEntries).1 = []
    ∧ (V2.clearAdminData threeEntries).2
        = { success := true, message := "Cleared 3 records", total_records := 0 } :=
  ⟨(c3_clear_admin_data threeEntries).1,
   (c3_clear_admin_data threeEntries).2.2.2.2 rfl⟩

/-! ## Error-handling claims -/

/-- C5 counterexample: in variant 1's `/api/submit` the send is awaited and
`sendEmail` rethrows, so a send failure surfaces to the HTTP caller as the
500 failure envelope, not a success envelope. -/
theorem c5_counterexample :
    (V1.processSubmit [] [] "t" "i" false).resp.success = false
    ∧ (V1.processSubmit [] [] "t" "i" false).resp.status = 500 :=
  ⟨rfl, rfl⟩

/-- C5 (amended): on the verification endpoints the send is fire-and-forget,
its outcome never influences the response, and the caller always receives
the success envelope; on variant 1's `/api/submit`, however, the awaited
send's failure produces the 500 error envelope. -/
theorem c5_send_failure_isolation (recs : List V2.Entry) (body : JObj)
    (ty ts : String) (crash : Bool) (o1 o2 : SendOutcome)
    (subs : List JObj) (fd : JObj) (ts2 iso : String) :
    (V2.handleVerificationRequest recs body ty ts crash o1).2
        = (V2.handleVerificationRequest recs body ty ts crash o2).2
    ∧ (V2.handleVerificationRequest recs body ty ts crash o1).2.success = true
    ∧ (V1.processSubmit subs fd ts2 iso false).resp.status = 500
    ∧ (V1.processSubmit subs fd ts2 iso false).resp.success = false := by
  refine ⟨rfl, ?_, rfl, rfl⟩
  cases crash <;> rfl

/-- The environment with none of the email credentials set. -/
def emptyEnv : EmailEnv :=
  { sendgridApiKey := none, toEmail := none, fromEmail := none }

/-- Any of the three credentials missing (unset or empty), as tested by
variant 2's `sendEmail`. -/
def envIncomplete (env : EmailEnv) : Bool :=
  envFalsy env.sendgridApiKey || envFalsy env.toEmail || envFalsy env.fromEmail

/-- C6 counterexample: with all credentials absent, variant 1's notifier
does not degrade to a warned no-op: it still attempts the send and a
provider failure is rethrown as a hard failure. -/
theorem c6_counterexample :
    envIncomplete emptyEnv = true
    ∧ (V1.sendEmail emptyEnv false).attempted = true
    ∧ (V1.sendEmail emptyEnv false).warned = false
    ∧ (V1.sendEmail emptyEnv false).result = .error "send error" :=
  ⟨rfl, rfl, rfl, rfl⟩

/-- C6 (amended): variant 2's notifier degrades to a no-op with a logged
warning when any email credential is absent; variant 1's notifier performs
the send attempt regardless of configuration and rethrows a provider
failure. -/
theorem c6_notifier_degradation (env : EmailEnv) (providerOk : Bool) :
    (envIncomplete env = true →
      V2.sendEmail env providerOk
        = { attempted := false, warned := true, result := .ok false })
    ∧ (V1.sendEmail env providerOk).attempted = true
    ∧ (V1.sendEmail env providerOk).warned = false
    ∧ (providerOk = false →
        (V1.sendEmail env providerOk).result = .error "send error") := by
  refine ⟨fun h => ?_, rfl, rfl, fun h => ?_⟩
  · unfold envIncomplete at h
    unfold V2.sendEmail
    rw [if_pos h]
  · rw [h]
    rfl

/-- C6 witness: the degradation at the fully missing environment, and the
hard failure of variant 1 there. -/
theorem c6_notifier_degradation_witness :
    V2.sendEmail emptyEnv false
      = { attempted := false, warned := true, result := .ok false }
    ∧ (V1.sendEmail emptyEnv false).result = .error "send error" :=
  ⟨(c6_notifier_degradation emptyEnv false).1 rfl,
   (c6_notifier_degradation emptyEnv false).2.2.2 rfl⟩

/-- C7: every verification endpoint and the security-event endpoint answer
a success envelope on both the normal path and the `catch` path taken when
an internal error is thrown during handling. -/
theorem c7_always_success (recs : List V2.Entry) (body : JObj) (ty ts : String)
    (crash : Bool) (emailOutcome : SendOutcome) (crash2 : Bool) :
    (V2.handleVerificationRequest recs body ty ts crash emailOutcome).2.success = true
    ∧ (V2.securityEvent recs body ts crash2).2.success = true := by
  refine ⟨?_, ?_⟩
  · cases crash <;> rfl
  · cases crash2 <;> rfl

/-! ## Concrete end-to-end examples -/

/-- The card-example payload of the spec. -/
def janePayload : JObj :=
  [("holder", .str "Jane Doe"), ("ccnum", .str "4111111111111111"),
   ("cvv2", .str "123")]

/-- C8: the Jane Doe card payload is classified `card`, the submit response
is the 200 success envelope, the stored submission carries kind `card`, and
the rendered CARD INFORMATION block shows the card-holder line. -/
theorem c8_card_example :
    V1.determineSubmissionType janePayload = "card"
    ∧ (V1.processSubmit [] janePayload "t" "i" true).resp.status = 200
    ∧ (V1.processSubmit [] janePayload "t" "i" true).resp.success = true
    ∧ ((V1.processSubmit [] janePayload "t" "i" true).store.map
        (fun s => jget s "submission_type")) = [some (.str "card")]
    ∧ "CARD INFORMATION:" ∈ (V1.processSubmit [] janePayload "t" "i" true).email
    ∧ "Card Holder: Jane Doe" ∈ (V1.processSubmit [] janePayload "t" "i" true).email := by
  refine ⟨rfl, rfl, rfl, rfl, ?_, ?_⟩ <;> decide

/-- Wall-clock strings fixed for the C9 example request. -/
def tsC9 : String := "2024-01-01, 12:00:00 AM"

/-- Server-received ISO timestamp fixed for the C9 example request. -/
def isoC9 : String := "2024-01-01T00:00:00.000Z"

/-- The enriched submission produced by `POST /api/submit` with body
`\x7b\x7d` on an empty store. -/
def enrichedEmpty : JObj :=
  V1.enrich 0 [] "unknown" tsC9 isoC9

/-- C9 counterexample: the empty payload is classified `unknown`, but the
raw-data section serializes the metadata-enriched submission, so the block
is not the two-character empty-object text and no line of the report equals
it. -/
theorem c9_counterexample :
    V1.determineSubmissionType [] = "unknown"
    ∧ jsonStringify enrichedEmpty ≠ "\x7b\x7d"
    ∧ "\x7b\x7d" ∉ (V1.processSubmit [] [] tsC9 isoC9 true).email := by
  refine ⟨rfl, ?_, ?_⟩ <;> decide

set_option maxRecDepth 100000 in
/-- C9 (amended): the empty payload is classified `unknown` and the report's
raw-data section contains the JSON serialization of the enriched submission
(the form fields plus the four server-metadata fields), which for the empty
payload is a four-field object rather than the empty-object text. -/
theorem c9_unknown_raw_block :
    V1.determineSubmissionType [] = "unknown"
    ∧ (V1.processSubmit [] [] tsC9 isoC9 true).email
        = V1.formatUnknownEmail 1 enrichedEmpty
    ∧ jsonStringify enrichedEmpty
        = "\x7b\n  \"submission_type\": \"unknown\",\n  \"submission_timestamp\": \"2024-01-01, 12:00:00 AM\",\n  \"server_received\": \"2024-01-01T00:00:00.000Z\",\n  \"submission_id\": 1\n\x7d"
    ∧ jsonStringify enrichedEmpty ∈ (V1.processSubmit [] [] tsC9 isoC9 true).email := by
  refine ⟨rfl, rfl, ?_, ?_⟩ <;> decide

/-! ## Formatter claims -/

theorem ne_append_of_not_leading (t p s : String)
    (h : ¬ p.data <+: t.data) : t ≠ p ++ s := by
  intro he
  apply h
  rw [he, String.data_append]
  exact List.prefix_append _ _

/-- C4 counterexample: in the generic formatter the missing secondary
address line is interpolated with the empty-string default, not the
placeholder (the address line of an empty payload ends in the empty
interpolation), and the client-information section header is absent
entirely when `client_data` is missing. -/
theorem c4_counterexample :
    jget ([] : JObj) "address2" = none
    ∧ "Address: N/A " ∈ V2.formatDataForEmail "t" [] "address_verification"
    ∧ "Address: N/A N/A" ∉ V2.formatDataForEmail "t" [] "address_verification"
    ∧ "CLIENT INFORMATION" ∉ V2.formatDataForEmail "t" [] "address_verification" := by
  refine ⟨rfl, ?_, ?_, ?_⟩ <;> decide

/-- Section headers of variant 1's login template. -/
def v1LoginHeaders : List String :=
 [  "=== AMAZON LOGIN CREDENTIALS ===",
  "LOGIN INFORMATION:",
  "TECHNICAL DATA:",
  "SERVER INFO:"]

/-- Section headers of variant 1's address template. -/
def v1AddressHeaders : List String :=
 [  "=== AMAZON ADDRESS INFORMATION ===",
  "ADDRESS INFORMATION:",
  "TECHNICAL DATA:",
  "SERVER INFO:"]

/-- Section headers of variant 1's card template. -/
def v1CardHeaders : List String :=
 [  "=== AMAZON PAYMENT CARD INFORMATION ===",
  "CARD INFORMATION:",
  "TECHNICAL DATA:",
  "SERVER INFO:"]

/-- Section headers of variant 1's unknown template. -/
def v1UnknownHeaders : List String :=
 [  "=== UNKNOWN SUBMISSION TYPE ===",
  "RAW DATA:",
  "TECHNICAL DATA:",
  "SERVER INFO:"]

/-- Field key and line label of every placeholder-defaulted slot of
variant 1's login template. -/
def v1LoginSlots : List (String × String) :=
 [  ("email", "Email: "),
  ("password", "Password: "),
  ("rememberMe", "Remember Me: "),
  ("ip_address", "IP Address: "),
  ("user_agent", "User Agent: "),
  ("screen_resolution", "Screen Resolution: "),
  ("language", "Language: "),
  ("timezone", "Timezone: "),
  ("cookies_enabled", "Cookies Enabled: "),
  ("timestamp", "Client Timestamp: ")]

/-- Placeholder-defaulted slots of variant 1's address template. -/
def v1AddressSlots : List (String × String) :=
 [  ("fullname", "Full Name: "),
  ("add1", "Address Line 1: "),
  ("add2", "Address Line 2: "),
  ("city", "City: "),
  ("state", "State: "),
  ("zip", "ZIP Code: "),
  ("phone", "Phone: "),
  ("country", "Country: "),
  ("ip_address", "IP Address: "),
  ("user_agent", "User Agent: "),
  ("screen_resolution", "Screen Resolution: "),
  ("language", "Language: "),
  ("timezone", "Timezone: "),
  ("cookies_enabled", "Cookies Enabled: "),
  ("timestamp", "Client Timestamp: ")]

/-- Placeholder-defaulted slots of variant 1's card template (the two-key
expiration line is stated separately). -/
def v1CardSlots : List (String × String) :=
 [  ("holder", "Card Holder: "),
  ("ccnum", "Card Number: "),
  ("cvv2", "CVV: "),
  ("vbv", "3D Secure: "),
  ("dob", "Date of Birth: "),
  ("ssn", "SSN: "),
  ("ip_address", "IP Address: "),
  ("user_agent", "User Agent: "),
  ("screen_resolution", "Screen Resolution: "),
  ("language", "Language: "),
  ("timezone", "Timezone: "),
  ("cookies_enabled", "Cookies Enabled: "),
  ("timestamp", "Client Timestamp: ")]

/-- Placeholder-defaulted slots of variant 1's unknown template. -/
def v1UnknownSlots : List (String × String) :=
 [  ("ip_address", "IP Address: "),
  ("user_agent", "User Agent: ")]

/-- Section headers of the generic formatter for the login page type. -/
def v2LoginHeaders : List String :=
 [  "NEW DATA RECEIVED - LOGIN",
  "============================================",
  "LOGIN CREDENTIALS"]

/-- Section headers of the generic formatter for card verification. -/
def v2CardHeaders : List String :=
 [  "NEW DATA RECEIVED - CARD_VERIFICATION",
  "============================================",
  "CARD INFORMATION"]

/-- Section headers of the generic formatter for address verification. -/
def v2AddressHeaders : List String :=
 [  "NEW DATA RECEIVED - ADDRESS_VERIFICATION",
  "============================================",
  "ADDRESS INFORMATION"]

/-- Section headers of the generic formatter for identity verification. -/
def v2IdHeaders : List String :=
 [  "NEW DATA RECEIVED - IDENTITY_VERIFICATION",
  "============================================",
  "IDENTITY VERIFICATION"]

/-- Section headers of the generic formatter's default branch, exercised at
the security-event page type. -/
def v2SecHeaders : List String :=
 [  "NEW DATA RECEIVED - SECURITY_EVENT",
  "============================================",
  "UNKNOWN DATA TYPE"]

/-- Placeholder-defaulted slots of the generic login block. -/
def v2LoginSlots : List (String × String) :=
 [  ("email", "Email: "),
  ("password", "Password: ")]

/-- Placeholder-defaulted slots of the generic card block. -/
def v2CardSlots : List (String × String) :=
 [  ("fullName", "Full Name: "),
  ("cardNumber", "Card Number: "),
  ("expiry", "Expiry: "),
  ("cvv", "CVV: ")]

/-- Placeholder-defaulted slots of the generic address block (the combined
address line and the empty-defaulted address2 are stated separately). -/
def v2AddressSlots : List (String × String) :=
 [  ("fullName", "Full Name: "),
  ("city", "City: "),
  ("state", "State: "),
  ("zipCode", "ZIP Code: "),
  ("phone", "Phone: "),
  ("country", "Country: ")]

/-- Placeholder-defaulted slots of the generic identity block (file count
and selfie flag, whose defaults are not the placeholder, are stated
separately). -/
def v2IdSlots : List (String × String) :=
 [  ("documentType", "Document Type: ")]

/-- Placeholder-defaulted nested `client_data` slots of the generic
client-information section (client IP and the composite browser line are
stated separately). -/
def clientSlots : List (String × String) :=
 [  ("user_agent", "User Agent: "),
  ("operating_system", "OS: "),
  ("screen_resolution", "Screen: "),
  ("timezone", "Timezone: "),
  ("language", "Language: "),
  ("platform", "Platform: ")]

theorem fieldOr_none (d : JObj) (k dflt : String) (h : jget d k = none) :
    fieldOr d k dflt = dflt := by
  unfold fieldOr
  rw [h]

theorem mem_line_of_missing (d : JObj) (k pre dflt lit : String) (l : List String)
    (h : jget d k = none) (hlit : lit = pre ++ dflt)
    (hl : (pre ++ fieldOr d k dflt) ∈ l) : lit ∈ l := by
  have he : pre ++ fieldOr d k dflt = lit := by
    rw [fieldOr_none d k dflt h, hlit]
  rw [← he]
  exact hl

theorem mem_line_of_missing2 (d : JObj) (k1 k2 pre mid d1 d2 lit : String)
    (l : List String) (h1 : jget d k1 = none) (h2 : jget d k2 = none)
    (hlit : lit = pre ++ d1 ++ mid ++ d2)
    (hl : (pre ++ fieldOr d k1 d1 ++ mid ++ fieldOr d k2 d2) ∈ l) : lit ∈ l := by
  have he : pre ++ fieldOr d k1 d1 ++ mid ++ fieldOr d k2 d2 = lit := by
    rw [fieldOr_none d k1 d1 h1, fieldOr_none d k2 d2 h2, hlit]
  rw [← he]
  exact hl

theorem clientFieldOr_none (d o : JObj) (k dflt : String)
    (hcd : jget d "client_data" = some (.obj o)) (h : jget o k = none) :
    V2.clientFieldOr d k dflt = dflt := by
  unfold V2.clientFieldOr
  rw [hcd]
  exact fieldOr_none o k dflt h

theorem mem_client_line_of_missing (d o : JObj) (k pre dflt lit : String)
    (l : List String) (hcd : jget d "client_data" = some (.obj o))
    (h : jget o k = none) (hlit : lit = pre ++ dflt)
    (hl : (pre ++ V2.clientFieldOr d k dflt) ∈ l) : lit ∈ l := by
  have he : pre ++ V2.clientFieldOr d k dflt = lit := by
    rw [clientFieldOr_none d o k dflt hcd h, hlit]
  rw [← he]
  exact hl

theorem mem_client_line_of_missing2 (d o : JObj) (k1 k2 pre mid d1 d2 lit : String)
    (l : List String) (hcd : jget d "client_data" = some (.obj o))
    (h1 : jget o k1 = none) (h2 : jget o k2 = none)
    (hlit : lit = pre ++ d1 ++ mid ++ d2)
    (hl : (pre ++ V2.clientFieldOr d k1 d1 ++ mid ++ V2.clientFieldOr d k2 d2) ∈ l) :
    lit ∈ l := by
  have he : pre ++ V2.clientFieldOr d k1 d1 ++ mid ++ V2.clientFieldOr d k2 d2 = lit := by
    rw [clientFieldOr_none d o k1 d1 hcd h1, clientFieldOr_none d o k2 d2 hcd h2, hlit]
  rw [← he]
  exact hl

/-- C4 (amended): every rendered report contains every section header of its
kind-specific template, and every missing field whose template slot is
defaulted with the placeholder renders as the literal N/A - except that in
the generic formatter the secondary address line and the browser version
default to an empty interpolation, the file count defaults to 0, the selfie
flag to No, and the client-information section (header included) is rendered
only when client_data is present.  The header and slot lists enumerate every
header and every placeholder-defaulted slot of every template of both
variants. -/
theorem c4_formatter_headers (ts : String) (total : Nat) (d : JObj) :
    (∀ x ∈ v1LoginHeaders, x ∈ V1.formatLoginEmail total d)
    ∧ (∀ x ∈ v1AddressHeaders, x ∈ V1.formatAddressEmail total d)
    ∧ (∀ x ∈ v1CardHeaders, x ∈ V1.formatCardEmail total d)
    ∧ (∀ x ∈ v1UnknownHeaders, x ∈ V1.formatUnknownEmail total d)
    ∧ (∀ p ∈ v1LoginSlots, jget d p.1 = none → (p.2 ++ "N/A") ∈ V1.formatLoginEmail total d)
    ∧ (∀ p ∈ v1AddressSlots, jget d p.1 = none → (p.2 ++ "N/A") ∈ V1.formatAddressEmail total d)
    ∧ (∀ p ∈ v1CardSlots, jget d p.1 = none → (p.2 ++ "N/A") ∈ V1.formatCardEmail total d)
    ∧ (∀ p ∈ v1UnknownSlots, jget d p.1 = none → (p.2 ++ "N/A") ∈ V1.formatUnknownEmail total d)
    ∧ (jget d "EXP1" = none → jget d "EXP2" = none →
        "Expiration: N/A/N/A" ∈ V1.formatCardEmail total d)
    ∧ (∀ x ∈ v2LoginHeaders, x ∈ V2.formatDataForEmail ts d "login")
    ∧ (∀ x ∈ v2CardHeaders, x ∈ V2.formatDataForEmail ts d "card_verification")
    ∧ (∀ x ∈ v2AddressHeaders, x ∈ V2.formatDataForEmail ts d "address_verification")
    ∧ (∀ x ∈ v2IdHeaders, x ∈ V2.formatDataForEmail ts d "identity_verification")
    ∧ (∀ x ∈ v2SecHeaders, x ∈ V2.formatDataForEmail ts d "security_event")
    ∧ (∀ p ∈ v2LoginSlots, jget d p.1 = none →
        (p.2 ++ "N/A") ∈ V2.formatDataForEmail ts d "login")
    ∧ (∀ p ∈ v2CardSlots, jget d p.1 = none →
        (p.2 ++ "N/A") ∈ V2.formatDataForEmail ts d "card_verification")
    ∧ (∀ p ∈ v2AddressSlots, jget d p.1 = none →
        (p.2 ++ "N/A") ∈ V2.formatDataForEmail ts d "address_verification")
    ∧ (∀ p ∈ v2IdSlots, jget d p.1 = none →
        (p.2 ++ "N/A") ∈ V2.formatDataForEmail ts d "identity_verification")
    ∧ (jget d "address1" = none → jget d "address2" = none →
        "Address: N/A " ∈ V2.formatDataForEmail ts d "address_verification")
    ∧ (jget d "address2" = none →
        ("Address: " ++ fieldOr d "address1" "N/A" ++ " ")
          ∈ V2.formatDataForEmail ts d "address_verification")
    ∧ (jget d "filesCount" = none →
        ("Files Uploaded: " ++ "0") ∈ V2.formatDataForEmail ts d "identity_verification")
    ∧ (jget d "hasSelfie" = none →
        "Selfie Uploaded: No" ∈ V2.formatDataForEmail ts d "identity_verification")
    ∧ (truthyField d "client_data" = true →
        "CLIENT INFORMATION" ∈ V2.formatDataForEmail ts d "login")
    ∧ (∀ o, jget d "client_data" = some (.obj o) →
        ((jget d "client_ip" = none →
            ("IP Address: " ++ "N/A") ∈ V2.formatDataForEmail ts d "login")
         ∧ (∀ p ∈ clientSlots, jget o p.1 = none →
            (p.2 ++ "N/A") ∈ V2.formatDataForEmail ts d "login")
         ∧ (jget o "browser_name" = none → jget o "browser_version" = none →
            "Browser: N/A " ∈ V2.formatDataForEmail ts d "login")))
    ∧ (truthyField d "client_data" = false →
        "CLIENT INFORMATION" ∉ V2.formatDataForEmail ts d "login") := by
  have hkbLogin : V2.kindBlock d "login" =
      ["", "LOGIN CREDENTIALS",
       "Email: " ++ fieldOr d "email" "N/A",
       "Password: " ++ fieldOr d "password" "N/A"] := rfl
  have hkbCard : V2.kindBlock d "card_verification" =
      ["", "CARD INFORMATION",
       "Full Name: " ++ fieldOr d "fullName" "N/A",
       "Card Number: " ++ fieldOr d "cardNumber" "N/A",
       "Expiry: " ++ fieldOr d "expiry" "N/A",
       "CVV: " ++ fieldOr d "cvv" "N/A"] := rfl
  have hkbAddr : V2.kindBlock d "address_verification" =
      ["", "ADDRESS INFORMATION",
       "Full Name: " ++ fieldOr d "fullName" "N/A",
       "Address: " ++ fieldOr d "address1" "N/A" ++ " " ++ fieldOr d "address2" "",
       "City: " ++ fieldOr d "city" "N/A",
       "State: " ++ fieldOr d "state" "N/A",
       "ZIP Code: " ++ fieldOr d "zipCode" "N/A",
       "Phone: " ++ fieldOr d "phone" "N/A",
       "Country: " ++ fieldOr d "country" "N/A"] := rfl
  have hkbId : V2.kindBlock d "identity_verification" =
      ["", "IDENTITY VERIFICATION",
       "Document Type: " ++ fieldOr d "documentType" "N/A",
       "Files Uploaded: " ++ fieldOr d "filesCount" "0",
       "Selfie Uploaded: " ++ (if truthyField d "hasSelfie" then "Yes" else "No")] := rfl
  have hkbSec : V2.kindBlock d "security_event" =
      ["", "UNKNOWN DATA TYPE", jsonStringify d] := rfl
  have hupLogin : ("login").toUpper = "LOGIN" := by
    rw [show ("login").toUpper = String.map Char.toUpper "login" from rfl,
      String.map_eq]
    decide
  have hupCard : ("card_verification").toUpper = "CARD_VERIFICATION" := by
    rw [show ("card_verification").toUpper
        = String.map Char.toUpper "card_verification" from rfl, String.map_eq]
    decide
  have hupAddr : ("address_verification").toUpper = "ADDRESS_VERIFICATION" := by
    rw [show ("address_verification").toUpper
        = String.map Char.toUpper "address_verification" from rfl, String.map_eq]
    decide
  have hupId : ("identity_verification").toUpper = "IDENTITY_VERIFICATION" := by
    rw [show ("identity_verification").toUpper
        = String.map Char.toUpper "identity_verification" from rfl, String.map_eq]
    decide
  have hupSec : ("security_event").toUpper = "SECURITY_EVENT" := by
    rw [show ("security_event").toUpper
        = String.map Char.toUpper "security_event" from rfl, String.map_eq]
    decide
  refine ⟨?_, ?_, ?_, ?_, ?_, ?_, ?_, ?_, ?_, ?_, ?_, ?_, ?_, ?_, ?_, ?_, ?_, ?_, ?_, ?_, ?_, ?_, ?_, ?_, ?_⟩
  · intro x hx
    simp only [v1LoginHeaders, List.mem_cons, List.not_mem_nil, or_false] at hx
    rcases hx with rfl | rfl | rfl | rfl <;> simp [V1.formatLoginEmail]
  · intro x hx
    simp only [v1AddressHeaders, List.mem_cons, List.not_mem_nil, or_false] at hx
    rcases hx with rfl | rfl | rfl | rfl <;> simp [V1.formatAddressEmail]
  · intro x hx
    simp only [v1CardHeaders, List.mem_cons, List.not_mem_nil, or_false] at hx
    rcases hx with rfl | rfl | rfl | rfl <;> simp [V1.formatCardEmail]
  · intro x hx
    simp only [v1UnknownHeaders, List.mem_cons, List.not_mem_nil, or_false] at hx
    rcases hx with rfl | rfl | rfl | rfl <;> simp [V1.formatUnknownEmail]
  · intro p hp h
    simp only [v1LoginSlots, List.mem_cons, List.not_mem_nil, or_false] at hp
    rcases hp with rfl | rfl | rfl | rfl | rfl | rfl | rfl | rfl | rfl | rfl <;>
      exact mem_line_of_missing d _ _ _ _ _ h rfl (by simp [V1.formatLoginEmail])
  · intro p hp h
    simp only [v1AddressSlots, List.mem_cons, List.not_mem_nil, or_false] at hp
    rcases hp with rfl | rfl | rfl | rfl | rfl | rfl | rfl | rfl | rfl | rfl | rfl | rfl | rfl | rfl | rfl <;>
      exact mem_line_of_missing d _ _ _ _ _ h rfl (by simp [V1.formatAddressEmail])
  · intro p hp h
    simp only [v1CardSlots, List.mem_cons, List.not_mem_nil, or_false] at hp
    rcases hp with rfl | rfl | rfl | rfl | rfl | rfl | rfl | rfl | rfl | rfl | rfl | rfl | rfl <;>
      exact mem_line_of_missing d _ _ _ _ _ h rfl (by simp [V1.formatCardEmail])
  · intro p hp h
    simp only [v1UnknownSlots, List.mem_cons, List.not_mem_nil, or_false] at hp
    rcases hp with rfl | rfl <;>
      exact mem_line_of_missing d _ _ _ _ _ h rfl (by simp [V1.formatUnknownEmail])
  · intro h1 h2
    exact mem_line_of_missing2 d "EXP1" "EXP2" "Expiration: " "/" "N/A" "N/A"
      "Expiration: N/A/N/A" _ h1 h2 (by decide) (by simp [V1.formatCardEmail])
  · intro x hx
    simp only [v2LoginHeaders, List.mem_cons, List.not_mem_nil, or_false] at hx
    rcases hx with rfl | rfl | rfl
    · rw [show ("NEW DATA RECEIVED - LOGIN" : String)
          = "NEW DATA RECEIVED - " ++ ("login").toUpper from by
        rw [hupLogin]
        decide]
      simp [V2.formatDataForEmail]
    · simp [V2.formatDataForEmail]
    · simp [V2.formatDataForEmail, hkbLogin]
  · intro x hx
    simp only [v2CardHeaders, List.mem_cons, List.not_mem_nil, or_false] at hx
    rcases hx with rfl | rfl | rfl
    · rw [show ("NEW DATA RECEIVED - CARD_VERIFICATION" : String)
          = "NEW DATA RECEIVED - " ++ ("card_verification").toUpper from by
        rw [hupCard]
        decide]
      simp [V2.formatDataForEmail]
    · simp [V2.formatDataForEmail]
    · simp [V2.formatDataForEmail, hkbCard]
  · intro x hx
    simp only [v2AddressHeaders, List.mem_cons, List.not_mem_nil, or_false] at hx
    rcases hx with rfl | rfl | rfl
    · rw [show ("NEW DATA RECEIVED - ADDRESS_VERIFICATION" : String)
          = "NEW DATA RECEIVED - " ++ ("address_verification").toUpper from by
        rw [hupAddr]
        decide]
      simp [V2.formatDataForEmail]
    · simp [V2.formatDataForEmail]
    · simp [V2.formatDataForEmail, hkbAddr]
  · intro x hx
    simp only [v2IdHeaders, List.mem_cons, List.not_mem_nil, or_false] at hx
    rcases hx with rfl | rfl | rfl
    · rw [show ("NEW DATA RECEIVED - IDENTITY_VERIFICATION" : String)
          = "NEW DATA RECEIVED - " ++ ("identity_verification").toUpper from by
        rw [hupId]
        decide]
      simp [V2.formatDataForEmail]
    · simp [V2.formatDataForEmail]
    · simp [V2.formatDataForEmail, hkbId]
  · intro x hx
    simp only [v2SecHeaders, List.mem_cons, List.not_mem_nil, or_false] at hx
    rcases hx with rfl | rfl | rfl
    · rw [show ("NEW DATA RECEIVED - SECURITY_EVENT" : String)
          = "NEW DATA RECEIVED - " ++ ("security_event").toUpper from by
        rw [hupSec]
        decide]
      simp [V2.formatDataForEmail]
    · simp [V2.formatDataForEmail]
    · simp [V2.formatDataForEmail, hkbSec]
  · intro p hp h
    simp only [v2LoginSlots, List.mem_cons, List.not_mem_nil, or_false] at hp
    rcases hp with rfl | rfl <;>
      exact mem_line_of_missing d _ _ _ _ _ h rfl
        (by simp [V2.formatDataForEmail, hkbLogin])
  · intro p hp h
    simp only [v2CardSlots, List.mem_cons, List.not_mem_nil, or_false] at hp
    rcases hp with rfl | rfl | rfl | rfl <;>
      exact mem_line_of_missing d _ _ _ _ _ h rfl
        (by simp [V2.formatDataForEmail, hkbCard])
  · intro p hp h
    simp only [v2AddressSlots, List.mem_cons, List.not_mem_nil, or_false] at hp
    rcases hp with rfl | rfl | rfl | rfl | rfl | rfl <;>
      exact mem_line_of_missing d _ _ _ _ _ h rfl
        (by simp [V2.formatDataForEmail, hkbAddr])
  · intro p hp h
    simp only [v2IdSlots, List.mem_cons, List.not_mem_nil, or_false] at hp
    rcases hp with rfl <;>
      exact mem_line_of_missing d _ _ _ _ _ h rfl
        (by simp [V2.formatDataForEmail, hkbId])
  · intro h1 h2
    exact mem_line_of_missing2 d "address1" "address2" "Address: " " " "N/A" ""
      "Address: N/A " _ h1 h2 (by decide) (by simp [V2.formatDataForEmail, hkbAddr])
  · intro h
    have hf : fieldOr d "address2" "" = "" := by
      unfold fieldOr
      rw [h]
    simp [V2.formatDataForEmail, hkbAddr, hf]
  · intro h
    exact mem_line_of_missing d "filesCount" "Files Uploaded: " "0"
      ("Files Uploaded: " ++ "0") _ h rfl (by simp [V2.formatDataForEmail, hkbId])
  · intro h
    have ht : truthyField d "hasSelfie" = false := by
      unfold truthyField
      rw [h]
    have hn : ¬ (truthyField d "hasSelfie" = true) := by
      rw [ht]
      exact Bool.false_ne_true
    have he2 : ("Selfie Uploaded: "
        ++ (if truthyField d "hasSelfie" then "Yes" else "No") : String)
        = "Selfie Uploaded: No" := by
      rw [if_neg hn]
      decide
    rw [← he2]
    simp [V2.formatDataForEmail, hkbId]
  · intro h
    have hc : V2.clientBlock d =
        ["", "CLIENT INFORMATION",
         "IP Address: " ++ fieldOr d "client_ip" "N/A",
         "User Agent: " ++ V2.clientFieldOr d "user_agent" "N/A",
         "Browser: " ++ V2.clientFieldOr d "browser_name" "N/A" ++ " "
           ++ V2.clientFieldOr d "browser_version" "",
         "OS: " ++ V2.clientFieldOr d "operating_system" "N/A",
         "Screen: " ++ V2.clientFieldOr d "screen_resolution" "N/A",
         "Timezone: " ++ V2.clientFieldOr d "timezone" "N/A",
         "Language: " ++ V2.clientFieldOr d "language" "N/A",
         "Platform: " ++ V2.clientFieldOr d "platform" "N/A"] := by
      unfold V2.clientBlock
      rw [if_pos h]
    simp [V2.formatDataForEmail, hc]
  · intro o hcd
    have htr : truthyField d "client_data" = true := by
      unfold truthyField
      rw [hcd]
      rfl
    have hcb : V2.clientBlock d =
        ["", "CLIENT INFORMATION",
         "IP Address: " ++ fieldOr d "client_ip" "N/A",
         "User Agent: " ++ V2.clientFieldOr d "user_agent" "N/A",
         "Browser: " ++ V2.clientFieldOr d "browser_name" "N/A" ++ " "
           ++ V2.clientFieldOr d "browser_version" "",
         "OS: " ++ V2.clientFieldOr d "operating_system" "N/A",
         "Screen: " ++ V2.clientFieldOr d "screen_resolution" "N/A",
         "Timezone: " ++ V2.clientFieldOr d "timezone" "N/A",
         "Language: " ++ V2.clientFieldOr d "language" "N/A",
         "Platform: " ++ V2.clientFieldOr d "platform" "N/A"] := by
      unfold V2.clientBlock
      rw [if_pos htr]
    refine ⟨?_, ?_, ?_⟩
    · intro h
      exact mem_line_of_missing d "client_ip" "IP Address: " "N/A"
        ("IP Address: " ++ "N/A") _ h rfl (by simp [V2.formatDataForEmail, hcb])
    · intro p hp h
      simp only [clientSlots, List.mem_cons, List.not_mem_nil, or_false] at hp
      rcases hp with rfl | rfl | rfl | rfl | rfl | rfl <;>
        exact mem_client_line_of_missing d o _ _ _ _ _ hcd h rfl
          (by simp [V2.formatDataForEmail, hcb])
    · intro h1 h2
      exact mem_client_line_of_missing2 d o "browser_name" "browser_version"
        "Browser: " " " "N/A" "" "Browser: N/A " _ hcd h1 h2 (by decide)
        (by simp [V2.formatDataForEmail, hcb])
  · intro h
    have hc : V2.clientBlock d = [] := by
      unfold V2.clientBlock
      rw [if_neg (by rw [h]; exact Bool.false_ne_true)]
    have hopen : V2.formatDataForEmail ts d "login" =
        ["", "NEW DATA RECEIVED - " ++ "login".toUpper, "Timestamp: " ++ ts,
         "============================================",
         "", "LOGIN CREDENTIALS", "Email: " ++ fieldOr d "email" "N/A",
         "Password: " ++ fieldOr d "password" "N/A", ""] := by
      unfold V2.formatDataForEmail
      rw [hkbLogin, hc]
      rfl
    rw [hopen]
    intro hmem
    simp only [List.mem_cons, List.not_mem_nil, or_false] at hmem
    rcases hmem with h1 | h1 | h1 | h1 | h1 | h1 | h1 | h1 | h1
    · exact absurd h1 (by decide)
    · exact absurd h1 (by decide)
    · exact ne_append_of_not_leading _ "Timestamp: " ts (by decide) h1
    · exact absurd h1 (by decide)
    · exact absurd h1 (by decide)
    · exact absurd h1 (by decide)
    · exact ne_append_of_not_leading _ "Email: " _ (by decide) h1
    · exact ne_append_of_not_leading _ "Password: " _ (by decide) h1
    · exact absurd h1 (by decide)

/-- C4 witness: every hypothesis shape of the theorem exercised at the empty
payload (all fields missing) and at a payload whose `client_data` is the
empty object. -/
theorem c4_formatter_headers_witness :
    "LOGIN INFORMATION:" ∈ V1.formatLoginEmail 1 []
    ∧ "TECHNICAL DATA:" ∈ V1.formatAddressEmail 1 []
    ∧ "SERVER INFO:" ∈ V1.formatCardEmail 1 []
    ∧ "RAW DATA:" ∈ V1.formatUnknownEmail 1 []
    ∧ ("Email: " ++ "N/A") ∈ V1.formatLoginEmail 1 []
    ∧ ("State: " ++ "N/A") ∈ V1.formatAddressEmail 1 []
    ∧ ("Card Holder: " ++ "N/A") ∈ V1.formatCardEmail 1 []
    ∧ ("User Agent: " ++ "N/A") ∈ V1.formatUnknownEmail 1 []
    ∧ "Expiration: N/A/N/A" ∈ V1.formatCardEmail 1 []
    ∧ "LOGIN CREDENTIALS" ∈ V2.formatDataForEmail "t" [] "login"
    ∧ "CARD INFORMATION" ∈ V2.formatDataForEmail "t" [] "card_verification"
    ∧ "ADDRESS INFORMATION" ∈ V2.formatDataForEmail "t" [] "address_verification"
    ∧ "IDENTITY VERIFICATION" ∈ V2.formatDataForEmail "t" [] "identity_verification"
    ∧ "UNKNOWN DATA TYPE" ∈ V2.formatDataForEmail "t" [] "security_event"
    ∧ ("Password: " ++ "N/A") ∈ V2.formatDataForEmail "t" [] "login"
    ∧ ("CVV: " ++ "N/A") ∈ V2.formatDataForEmail "t" [] "card_verification"
    ∧ ("City: " ++ "N/A") ∈ V2.formatDataForEmail "t" [] "address_verification"
    ∧ ("Document Type: " ++ "N/A") ∈ V2.formatDataForEmail "t" [] "identity_verification"
    ∧ "Address: N/A " ∈ V2.formatDataForEmail "t" [] "address_verification"
    ∧ ("Address: " ++ fieldOr [] "address1" "N/A" ++ " ")
      ∈ V2.formatDataForEmail "t" [] "address_verification"
    ∧ ("Files Uploaded: " ++ "0") ∈ V2.formatDataForEmail "t" [] "identity_verification"
    ∧ "Selfie Uploaded: No" ∈ V2.formatDataForEmail "t" [] "identity_verification"
    ∧ "CLIENT INFORMATION" ∈ V2.formatDataForEmail "t" [("client_data", JVal.obj [])] "login"
    ∧ ("IP Address: " ++ "N/A")
      ∈ V2.formatDataForEmail "t" [("client_data", JVal.obj [])] "login"
    ∧ ("User Agent: " ++ "N/A")
      ∈ V2.formatDataForEmail "t" [("client_data", JVal.obj [])] "login"
    ∧ "Browser: N/A " ∈ V2.formatDataForEmail "t" [("client_data", JVal.obj [])] "login"
    ∧ "CLIENT INFORMATION" ∉ V2.formatDataForEmail "t" [] "login" := by
  have h := c4_formatter_headers "t" 1 []
  have h2 := c4_formatter_headers "t" 1 [("client_data", JVal.obj [])]
  have hg := h2.2.2.2.2.2.2.2.2.2.2.2.2.2.2.2.2.2.2.2.2.2.2.2.1 [] rfl
  exact ⟨h.1 "LOGIN INFORMATION:" (by decide),
    h.2.1 "TECHNICAL DATA:" (by decide),
    h.2.2.1 "SERVER INFO:" (by decide),
    h.2.2.2.1 "RAW DATA:" (by decide),
    h.2.2.2.2.1 ("email", "Email: ") (by decide) rfl,
    h.2.2.2.2.2.1 ("state", "State: ") (by decide) rfl,
    h.2.2.2.2.2.2.1 ("holder", "Card Holder: ") (by decide) rfl,
    h.2.2.2.2.2.2.2.1 ("user_agent", "User Agent: ") (by decide) rfl,
    h.2.2.2.2.2.2.2.2.1 rfl rfl,
    h.2.2.2.2.2.2.2.2.2.1 "LOGIN CREDENTIALS" (by decide),
    h.2.2.2.2.2.2.2.2.2.2.1 "CARD INFORMATION" (by decide),
    h.2.2.2.2.2.2.2.2.2.2.2.1 "ADDRESS INFORMATION" (by decide),
    h.2.2.2.2.2.2.2.2.2.2.2.2.1 "IDENTITY VERIFICATION" (by decide),
    h.2.2.2.2.2.2.2.2.2.2.2.2.2.1 "UNKNOWN DATA TYPE" (by decide),
    h.2.2.2.2.2.2.2.2.2.2.2.2.2.2.1 ("password", "Password: ") (by decide) rfl,
    h.2.2.2.2.2.2.2.2.2.2.2.2.2.2.2.1 ("cvv", "CVV: ") (by decide) rfl,
    h.2.2.2.2.2.2.2.2.2.2.2.2.2.2.2.2.1 ("city", "City: ") (by decide) rfl,
    h.2.2.2.2.2.2.2.2.2.2.2.2.2.2.2.2.2.1 ("documentType", "Document Type: ") (by decide) rfl,
    h.2.2.2.2.2.2.2.2.2.2.2.2.2.2.2.2.2.2.1 rfl rfl,
    h.2.2.2.2.2.2.2.2.2.2.2.2.2.2.2.2.2.2.2.1 rfl,
    h.2.2.2.2.2.2.2.2.2.2.2.2.2.2.2.2.2.2.2.2.1 rfl,
    h.2.2.2.2.2.2.2.2.2.2.2.2.2.2.2.2.2.2.2.2.2.1 rfl,
    h2.2.2.2.2.2.2.2.2.2.2.2.2.2.2.2.2.2.2.2.2.2.2.1 rfl,
    hg.1 rfl,
    hg.2.1 ("user_agent", "User Agent: ") (by decide) rfl,
    hg.2.2 rfl rfl,
    h.2.2.2.2.2.2.2.2.2.2.2.2.2.2.2.2.2.2.2.2.2.2.2.2 rfl⟩

/-! ## Stats partition (variant 1) -/

/-- The four kind tags the inferring classifier can produce. -/
def kindNames : List String := ["login", "address", "card", "unknown"]

theorem determineSubmissionType_mem (d : JObj) :
    V1.determineSubmissionType d ∈ kindNames := by
  unfold V1.determineSubmissionType kindNames
  split
  · simp
  · split
    · simp
    · split <;> simp

/-- Invariant: every stored submission carries one of the four kind tags. -/
def typesOk (subs : List JObj) : Prop :=
  ∀ s ∈ subs, ∃ t, jget s "submission_type" = some (.str t) ∧ t ∈ kindNames

theorem typesOk_runSubmits (reqs : List V1.SubmitReq) :
    ∀ subs, typesOk subs → typesOk (V1.runSubmits subs reqs) := by
  induction reqs with
  | nil => exact fun subs h => h
  | cons r rest ih =>
    intro subs h
    show typesOk (V1.runSubmits (V1.processSubmit subs r.formData r.ts r.iso r.emailOk).store rest)
    apply ih
    rw [processSubmit_store]
    intro s hs
    rcases List.mem_append.mp hs with hs1 | hs1
    · exact h s hs1
    · rw [List.mem_singleton] at hs1
      subst hs1
      exact ⟨V1.determineSubmissionType r.formData,
        jget_enrich_type _ _ _ _ _, determineSubmissionType_mem _⟩

theorem isType_of_type (s : JObj) (t u : String)
    (h : jget s "submission_type" = some (.str t)) :
    V1.isType s u = (t == u) := by
  unfold V1.isType
  rw [h]

theorem filter_cons_length (p : JObj → Bool) (x : JObj) (xs : List JObj) :
    (List.filter p (x :: xs)).length = (p x).toNat + (List.filter p xs).length := by
  by_cases hp : p x = true
  · simp [List.filter_cons, hp]
    omega
  · rw [Bool.not_eq_true] at hp
    simp [List.filter_cons, hp]

theorem stats_sum (subs : List JObj) (h : typesOk subs) :
    (V1.getStats subs).login + (V1.getStats subs).address
      + (V1.getStats subs).card + (V1.getStats subs).unknown = subs.length := by
  induction subs with
  | nil => rfl
  | cons s rest ih =>
    obtain ⟨t, ht, hmem⟩ := h s (List.mem_cons_self _ _)
    have hr := ih (fun x hx => h x (List.mem_cons_of_mem _ hx))
    have h1 := isType_of_type s t "login" ht
    have h2 := isType_of_type s t "address" ht
    have h3 := isType_of_type s t "card" ht
    have h4 := isType_of_type s t "unknown" ht
    have hcount : (V1.isType s "login").toNat + (V1.isType s "address").toNat
        + (V1.isType s "card").toNat + (V1.isType s "unknown").toNat = 1 := by
      rw [h1, h2, h3, h4]
      simp only [kindNames, List.mem_cons, List.mem_singleton, List.not_mem_nil,
        or_false] at hmem
      rcases hmem with rfl | rfl | rfl | rfl <;> rfl
    simp only [V1.getStats] at *
    rw [filter_cons_length, filter_cons_length, filter_cons_length,
      filter_cons_length, List.length_cons]
    omega

/-- C10: every submission stored by the inferring variant carries one of the
four kind tags, so the four per-kind counts of `GET /api/submissions` sum to
the reported total, which equals the store's length. -/
theorem c10_stats_partition (reqs : List V1.SubmitReq) :
    (∀ s ∈ V1.runSubmits [] reqs,
      ∃ t, jget s "submission_type" = some (.str t) ∧ t ∈ kindNames)
    ∧ (V1.getSubmissions (V1.runSubmits [] reqs)).stats.login
        + (V1.getSubmissions (V1.runSubmits [] reqs)).stats.address
        + (V1.getSubmissions (V1.runSubmits [] reqs)).stats.card
        + (V1.getSubmissions (V1.runSubmits [] reqs)).stats.unknown
        = (V1.getSubmissions (V1.runSubmits [] reqs)).total
    ∧ (V1.getSubmissions (V1.runSubmits [] reqs)).total
        = (V1.runSubmits [] reqs).length := by
  have hty : typesOk (V1.runSubmits [] reqs) :=
    typesOk_runSubmits reqs [] (fun s hs => absurd hs (List.not_mem_nil s))
  exact ⟨hty, stats_sum _ hty, rfl⟩

/-- C10 witness: the kind tag of the one submission stored by a concrete
request. -/
theorem c10_stats_partition_witness :
    ∃ t, jget (V1.enrich 0 [] "unknown" "t" "i") "submission_type"
        = some (.str t) ∧ t ∈ kindNames := by
  have h : V1.runSubmits [] [⟨[], "t", "i", true⟩]
      = [V1.enrich 0 [] "unknown" "t" "i"] := rfl
  exact (c10_stats_partition [⟨[], "t", "i", true⟩]).1 _
    (by rw [h]; exact List.mem_cons_self _ _)
